import Mathlib

/-!
Shallow embedding of the MKL-DNN RNN operator kernels
(kernels/mkldnn_rnn_ops.cc and ops/mkldnn_rnn_ops.cc): model types,
parameter-buffer sizing, forward-input shape extraction, and the shape
logic of the forward and backward Compute methods. The numeric
recurrence primitive itself is external to the repository and is
modelled as an opaque workspace-size query function where its output
feeds back into shape decisions.
-/

namespace MkldnnRnn

/-- The recognized RNN algorithms, the four values produced by ParseRNNMode. -/
inductive algorithm
  | rnn_relu
  | rnn_tanh
  | rnn_lstm
  | rnn_gru
deriving DecidableEq

/-- The recognized input modes produced by ParseRNNInputMode
(auto_select resolves to rnn_linear_input in the source). -/
inductive input_mode
  | rnn_linear_input
  | rnn_skip_input
deriving DecidableEq

/-- The recognized direction modes produced by ParseRNNDirectionMode. -/
inductive direction
  | rnn_unidirectional
  | rnn_bidirectional
deriving DecidableEq

/-- Mirror of struct MkldnnModelTypes. -/
structure MkldnnModelTypes where
  rnn_mode : algorithm
  rnn_input_mode : input_mode
  rnn_direction_mode : direction
deriving DecidableEq

/-- MkldnnModelTypes::HasInputC: only LSTM has input-c. -/
def MkldnnModelTypes.HasInputC (t : MkldnnModelTypes) : Bool :=
  match t.rnn_mode with
  | algorithm.rnn_lstm => true
  | _ => false

/-- A tensor shape: the ordered list of dimension sizes. -/
abbrev TensorShape := List Nat

/-- The part of a tensorflow Tensor this embedding needs: its shape. -/
structure Tensor where
  shape : TensorShape
deriving DecidableEq

/-- Tensor::dims(). -/
def Tensor.dims (t : Tensor) : Nat := t.shape.length

/-- Tensor::dim_size(i). -/
def Tensor.dim_size (t : Tensor) (i : Nat) : Nat := t.shape.getD i 0

/-- Mirror of struct MkldnnModelShapes. -/
structure MkldnnModelShapes where
  num_layers : Nat
  input_size : Nat
  num_units : Nat
  seq_length : Nat
  batch_size : Nat
  dir_count : Nat
  input_shape : TensorShape
  output_shape : TensorShape
  hidden_state_shape : TensorShape
deriving DecidableEq

/-- Errors surfaced by the kernels. invalidArgument carries the literal
message text and the shapes whose DebugStrings the message interpolates;
nullDeref marks an error branch that dereferences a null tensor pointer. -/
inductive RnnError
  | invalidArgument (msg : String) (shapes : List TensorShape)
  | nullDeref
deriving DecidableEq

/-- get_param_size from kernels/mkldnn_rnn_ops.cc, lines 287-315.
The switch is over the four recognized algorithms; arithmetic is the
source's integer arithmetic read over the integers. -/
def get_param_size (rnn_mode : algorithm) (dir_count input_size num_units num_layers : Int) :
    Int :=
  match rnn_mode with
  | algorithm.rnn_relu =>
      (num_units * (input_size + num_units + 2) +
        (num_layers - 1) * num_units * (num_units + num_units + 2)) * dir_count
  | algorithm.rnn_tanh =>
      (num_units * (input_size + num_units + 2) +
        (num_layers - 1) * num_units * (num_units + num_units + 2)) * dir_count
  | algorithm.rnn_lstm =>
      (4 * num_units * (input_size + num_units + 2) +
        4 * (num_layers - 1) * num_units * (num_units + num_units + 2)) * dir_count
  | algorithm.rnn_gru =>
      (3 * num_units * (input_size + num_units + 2) +
        3 * (num_layers - 1) * num_units * (num_units + num_units + 2)) * dir_count

/-- ExtractForwardInput from kernels/mkldnn_rnn_ops.cc, lines 179-249:
derives MkldnnModelShapes from the input and input_h tensors and, for
models with a cell state, checks input_c's shape against input_h's. -/
def ExtractForwardInput (mt : MkldnnModelTypes) (input input_h input_c : Tensor) :
    Except RnnError MkldnnModelShapes :=
  let seq_length := if input.dims = 2 then 1 else input.dim_size 0
  let batch_size := if input.dims = 2 then input.dim_size 0 else input.dim_size 1
  let input_size := if input.dims = 2 then input.dim_size 1 else input.dim_size 2
  let the_input_shape : TensorShape :=
    if input.dims = 2 then [1, batch_size, input_size] else input.shape
  let dir_count :=
    if mt.rnn_direction_mode = direction.rnn_bidirectional then 2 else 1
  let num_layers := if input_h.dims = 2 then 1 else input_h.dim_size 0 / dir_count
  let num_units := if input_h.dims = 2 then input_h.dim_size 1 else input_h.dim_size 2
  let hidden_shape : TensorShape :=
    if input_h.dims = 2 then [batch_size, num_units]
    else [dir_count * num_layers, batch_size, num_units]
  if mt.HasInputC ∧ input_h.shape ≠ input_c.shape then
    Except.error (RnnError.invalidArgument
      "input_h and input_c must have the same shape: " [input_h.shape, input_c.shape])
  else
    let the_output_shape : TensorShape :=
      if input.dims = 2 then [batch_size, dir_count * num_units]
      else [seq_length, batch_size, dir_count * num_units]
    Except.ok
      { num_layers := num_layers
        input_size := input_size
        num_units := num_units
        seq_length := seq_length
        batch_size := batch_size
        dir_count := dir_count
        input_shape := the_input_shape
        output_shape := the_output_shape
        hidden_state_shape := hidden_shape }

/-- Shapes of the four outputs allocated by MkldnnRNNForwardOp::Compute. -/
structure ForwardOutputs where
  output_shape : TensorShape
  output_h_shape : TensorShape
  output_c_shape : TensorShape
  reserve_shape : TensorShape
deriving DecidableEq

/-- MkldnnRNNForwardOp::Compute (kernels/mkldnn_rnn_ops.cc, lines 374-501),
restricted to its shape behaviour. The mkldnn forward primitive descriptor
is external to the repository; the size it reports for the workspace
(reserve space) is modelled by the opaque query function workspace_query,
applied to the data the descriptor is built from (the model types and the
resolved model shapes). In training mode output 3 is allocated with exactly
that many elements; in inference mode it is allocated with the empty shape. -/
def MkldnnRNNForwardCompute (mt : MkldnnModelTypes) (is_training : Bool)
    (workspace_query : MkldnnModelTypes → MkldnnModelShapes → Nat)
    (input input_h input_c _params : Tensor) : Except RnnError ForwardOutputs :=
  match ExtractForwardInput mt input input_h input_c with
  | Except.error e => Except.error e
  | Except.ok model_shapes =>
      Except.ok
        { output_shape := model_shapes.output_shape
          output_h_shape := model_shapes.hidden_state_shape
          output_c_shape :=
            if mt.HasInputC then model_shapes.hidden_state_shape else []
          reserve_shape :=
            if is_training then [workspace_query mt model_shapes] else [] }

/-- Shapes of the four outputs allocated by MkldnnRNNBackwardOp::Compute,
plus the workspace element count its backward memory descriptor expects
for the reserve_space input. -/
structure BackwardOutputs where
  input_backprop_shape : TensorShape
  input_h_backprop_shape : TensorShape
  input_c_backprop_shape : TensorShape
  params_backprop_shape : TensorShape
  expected_workspace_size : Nat
deriving DecidableEq

/-- MkldnnRNNBackwardOp::Compute (kernels/mkldnn_rnn_ops.cc, lines 521-770),
restricted to its shape checks and allocations. The Tcx pointer is assigned
by ExtractForwardInput only when the model has a cell state, so it is
modelled as an Option that is none for other models; the output_backprop
shape-check error message is built from Thx's and Tcx's shapes (lines
540-544), so reaching it with Tcx null is a null dereference. -/
def MkldnnRNNBackwardCompute (mt : MkldnnModelTypes)
    (workspace_query : MkldnnModelTypes → MkldnnModelShapes → Nat)
    (input input_h input_c params output_backprop output_h_backprop
      output_c_backprop _reserve_space : Tensor) : Except RnnError BackwardOutputs :=
  match ExtractForwardInput mt input input_h input_c with
  | Except.error e => Except.error e
  | Except.ok model_shapes =>
      let Tcx : Option Tensor := if mt.HasInputC then some input_c else none
      if model_shapes.output_shape ≠ output_backprop.shape then
        match Tcx with
        | none => Except.error RnnError.nullDeref
        | some cx =>
            Except.error (RnnError.invalidArgument
              "h and c must have the same shape: " [input_h.shape, cx.shape])
      else if output_h_backprop.shape ≠ model_shapes.hidden_state_shape then
        Except.error (RnnError.invalidArgument "Invalid dhy shape: "
          [output_h_backprop.shape, model_shapes.hidden_state_shape])
      else if mt.HasInputC ∧ output_c_backprop.shape ≠ model_shapes.hidden_state_shape then
        Except.error (RnnError.invalidArgument "Invalid dcy shape: "
          [output_c_backprop.shape, model_shapes.hidden_state_shape])
      else
        Except.ok
          { input_backprop_shape := input.shape
            input_h_backprop_shape := input_h.shape
            input_c_backprop_shape := if mt.HasInputC then input_c.shape else []
            params_backprop_shape := params.shape
            expected_workspace_size := workspace_query mt model_shapes }

/-- An int32 input tensor of MkldnnRNNParamsSizeOp: its shape, and the
value the kernel reads from its data (Tensor::scalar). -/
structure ScalarInput where
  shape : TensorShape
  value : Int
deriving DecidableEq

/-- TensorShapeUtils::IsScalar. -/
def IsScalar (sh : TensorShape) : Bool := sh.length = 0

/-- MkldnnRNNParamsSizeOp::Compute (kernels/mkldnn_rnn_ops.cc, lines
327-357). A non-scalar num_layers, num_units or input_size only produces a
LOG(ERROR) line (collected in the first component); the kernel then reads
the tensor data and returns the computed size regardless. -/
def MkldnnRNNParamsSizeCompute (mt : MkldnnModelTypes)
    (num_layers_t num_units_t input_size_t : ScalarInput) :
    Except RnnError (List String × Int) :=
  let dir_count : Int :=
    if mt.rnn_direction_mode = direction.rnn_unidirectional then 1 else 2
  let logs :=
    (if IsScalar num_layers_t.shape then [] else ["num_layers is not a scalar"]) ++
    (if IsScalar num_units_t.shape then [] else ["num_units is not a scalar"]) ++
    (if IsScalar input_size_t.shape then [] else ["input_size is not a scalar"])
  Except.ok (logs,
    get_param_size mt.rnn_mode dir_count input_size_t.value num_units_t.value
      num_layers_t.value)

/-- Unidirectional plain-relu model types. -/
def mtReluUni : MkldnnModelTypes :=
  ⟨algorithm.rnn_relu, input_mode.rnn_linear_input, direction.rnn_unidirectional⟩

/-- Bidirectional plain-relu model types. -/
def mtReluBi : MkldnnModelTypes :=
  ⟨algorithm.rnn_relu, input_mode.rnn_linear_input, direction.rnn_bidirectional⟩

/-- Unidirectional LSTM model types. -/
def mtLstmUni : MkldnnModelTypes :=
  ⟨algorithm.rnn_lstm, input_mode.rnn_linear_input, direction.rnn_unidirectional⟩

/-- Bidirectional LSTM model types. -/
def mtLstmBi : MkldnnModelTypes :=
  ⟨algorithm.rnn_lstm, input_mode.rnn_linear_input, direction.rnn_bidirectional⟩

/-- A list of length 2 is the list of its first two entries. -/
theorem shape_of_length_two (sh : TensorShape) (hl : sh.length = 2) :
    sh = [sh.getD 0 0, sh.getD 1 0] := by
  cases sh with
  | nil => simp at hl
  | cons a t =>
    cases t with
    | nil => simp at hl
    | cons b t2 =>
      cases t2 with
      | nil => rfl
      | cons c t3 => simp at hl

/-- A list of length 3 is the list of its first three entries. -/
theorem shape_of_length_three (sh : TensorShape) (hl : sh.length = 3) :
    sh = [sh.getD 0 0, sh.getD 1 0, sh.getD 2 0] := by
  cases sh with
  | nil => simp at hl
  | cons a t =>
    cases t with
    | nil => simp at hl
    | cons b t2 =>
      cases t2 with
      | nil => simp at hl
      | cons c t3 =>
        cases t3 with
        | nil => rfl
        | cons d t4 => simp at hl

/-- When the cell-state guard does not fire, ExtractForwardInput succeeds
and its result's fields are exactly the derived quantities. -/
theorem ExtractForwardInput_ok (mt : MkldnnModelTypes) (x h c : Tensor)
    (hg : ¬(mt.HasInputC ∧ h.shape ≠ c.shape)) :
    ExtractForwardInput mt x h c = Except.ok
      { num_layers :=
          if h.dims = 2 then 1
          else h.dim_size 0 /
            (if mt.rnn_direction_mode = direction.rnn_bidirectional then 2 else 1)
        input_size := if x.dims = 2 then x.dim_size 1 else x.dim_size 2
        num_units := if h.dims = 2 then h.dim_size 1 else h.dim_size 2
        seq_length := if x.dims = 2 then 1 else x.dim_size 0
        batch_size := if x.dims = 2 then x.dim_size 0 else x.dim_size 1
        dir_count :=
          if mt.rnn_direction_mode = direction.rnn_bidirectional then 2 else 1
        input_shape :=
          if x.dims = 2 then
            [1, if x.dims = 2 then x.dim_size 0 else x.dim_size 1,
              if x.dims = 2 then x.dim_size 1 else x.dim_size 2]
          else x.shape
        output_shape :=
          if x.dims = 2 then
            [if x.dims = 2 then x.dim_size 0 else x.dim_size 1,
             (if mt.rnn_direction_mode = direction.rnn_bidirectional then 2 else 1) *
               (if h.dims = 2 then h.dim_size 1 else h.dim_size 2)]
          else
            [if x.dims = 2 then 1 else x.dim_size 0,
             if x.dims = 2 then x.dim_size 0 else x.dim_size 1,
             (if mt.rnn_direction_mode = direction.rnn_bidirectional then 2 else 1) *
               (if h.dims = 2 then h.dim_size 1 else h.dim_size 2)]
        hidden_state_shape :=
          if h.dims = 2 then
            [if x.dims = 2 then x.dim_size 0 else x.dim_size 1,
             if h.dims = 2 then h.dim_size 1 else h.dim_size 2]
          else
            [(if mt.rnn_direction_mode = direction.rnn_bidirectional then 2 else 1) *
               (if h.dims = 2 then 1
                else h.dim_size 0 /
                  (if mt.rnn_direction_mode = direction.rnn_bidirectional then 2 else 1)),
             if x.dims = 2 then x.dim_size 0 else x.dim_size 1,
             if h.dims = 2 then h.dim_size 1 else h.dim_size 2] } := by
  simp only [ExtractForwardInput]
  rw [if_neg hg]

/-- If ExtractForwardInput succeeded, the guard did not fire and the
resulting fields are the derived quantities. -/
theorem ExtractForwardInput_ok_spec (mt : MkldnnModelTypes) (x h c : Tensor)
    (ms : MkldnnModelShapes)
    (hok : ExtractForwardInput mt x h c = Except.ok ms) :
    ¬(mt.HasInputC ∧ h.shape ≠ c.shape) ∧
    ms.dir_count =
      (if mt.rnn_direction_mode = direction.rnn_bidirectional then 2 else 1) ∧
    ms.seq_length = (if x.dims = 2 then 1 else x.dim_size 0) ∧
    ms.batch_size = (if x.dims = 2 then x.dim_size 0 else x.dim_size 1) ∧
    ms.input_size = (if x.dims = 2 then x.dim_size 1 else x.dim_size 2) ∧
    ms.num_layers = (if h.dims = 2 then 1 else h.dim_size 0 / ms.dir_count) ∧
    ms.num_units = (if h.dims = 2 then h.dim_size 1 else h.dim_size 2) ∧
    ms.hidden_state_shape =
      (if h.dims = 2 then [ms.batch_size, ms.num_units]
       else [ms.dir_count * ms.num_layers, ms.batch_size, ms.num_units]) ∧
    ms.output_shape =
      (if x.dims = 2 then [ms.batch_size, ms.dir_count * ms.num_units]
       else [ms.seq_length, ms.batch_size, ms.dir_count * ms.num_units]) := by
  by_cases hg : mt.HasInputC ∧ h.shape ≠ c.shape
  · simp only [ExtractForwardInput] at hok
    rw [if_pos hg] at hok
    exact absurd hok (by simp)
  · rw [ExtractForwardInput_ok mt x h c hg] at hok
    have hms := (Except.ok.inj hok).symm
    subst hms
    refine ⟨hg, rfl, rfl, rfl, rfl, rfl, rfl, rfl, rfl⟩

/-- C1: for every recognized recurrence kind, get_param_size equals
(g*num_units*(input_size+num_units+2) +
 g*(num_layers-1)*num_units*(2*num_units+2)) * dir_count with g = 1 for
plain relu and tanh, 4 for LSTM and 3 for GRU; in particular LSTM,
dir_count 1, input_size 3, num_units 4, num_layers 2 gives 304. -/
theorem param_size_formula :
    (∀ d i u l : Int,
      get_param_size algorithm.rnn_relu d i u l =
        (1 * u * (i + u + 2) + 1 * (l - 1) * u * (2 * u + 2)) * d ∧
      get_param_size algorithm.rnn_tanh d i u l =
        (1 * u * (i + u + 2) + 1 * (l - 1) * u * (2 * u + 2)) * d ∧
      get_param_size algorithm.rnn_lstm d i u l =
        (4 * u * (i + u + 2) + 4 * (l - 1) * u * (2 * u + 2)) * d ∧
      get_param_size algorithm.rnn_gru d i u l =
        (3 * u * (i + u + 2) + 3 * (l - 1) * u * (2 * u + 2)) * d) ∧
    get_param_size algorithm.rnn_lstm 1 3 4 2 = 304 := by
  constructor
  · intro d i u l
    refine ⟨?_, ?_, ?_, ?_⟩ <;> simp only [get_param_size] <;> ring
  · decide

/-- C8: for every recognized kind, dir_count in {1,2}, input_size ≥ 0,
num_units ≥ 0 and num_layers ≥ 1, get_param_size is deterministic and
monotonically non-decreasing in input_size, num_units and num_layers,
the other arguments held fixed. -/
theorem param_size_monotone (kind : algorithm) (dir i u l i' u' l' : Int)
    (hdir : dir = 1 ∨ dir = 2) (hi : 0 ≤ i) (hu : 0 ≤ u) (hl : 1 ≤ l)
    (hii : i ≤ i') (huu : u ≤ u') (hll : l ≤ l') :
    (∀ (k2 : algorithm) (d2 i2 u2 l2 : Int),
        kind = k2 → dir = d2 → i = i2 → u = u2 → l = l2 →
        get_param_size kind dir i u l = get_param_size k2 d2 i2 u2 l2) ∧
    get_param_size kind dir i u l ≤ get_param_size kind dir i' u l ∧
    get_param_size kind dir i u l ≤ get_param_size kind dir i u' l ∧
    get_param_size kind dir i u l ≤ get_param_size kind dir i u l' := by
  have hd0 : (0 : Int) ≤ dir := by rcases hdir with h | h <;> simp [h]
  have hu' : (0 : Int) ≤ u' := le_trans hu huu
  have hA : (0 : Int) ≤ (u' - u) * (i + 2) * dir :=
    mul_nonneg (mul_nonneg (by linarith) (by linarith)) hd0
  have hB : (0 : Int) ≤ (u' - u) * (u' + u) * dir :=
    mul_nonneg (mul_nonneg (by linarith) (by linarith)) hd0
  have hC : (0 : Int) ≤ (l - 1) * ((u' - u) * (u' + u + 1)) * dir :=
    mul_nonneg (mul_nonneg (by linarith)
      (mul_nonneg (by linarith) (by linarith))) hd0
  have hI : (0 : Int) ≤ u * (i' - i) * dir :=
    mul_nonneg (mul_nonneg hu (by linarith)) hd0
  have hL : (0 : Int) ≤ (l' - l) * u * (u + u + 2) * dir :=
    mul_nonneg (mul_nonneg (mul_nonneg (by linarith) hu) (by linarith)) hd0
  refine ⟨?_, ?_, ?_, ?_⟩
  · intro k2 d2 i2 u2 l2 hk hd hi2 hu2 hl2
    subst hk; subst hd; subst hi2; subst hu2; subst hl2; rfl
  · cases kind <;> simp only [get_param_size] <;> nlinarith [hI]
  · cases kind <;> simp only [get_param_size] <;> nlinarith [hA, hB, hC]
  · cases kind <;> simp only [get_param_size] <;> nlinarith [hL]

/-- Witness for C8 at LSTM, dir_count 1, (input_size, num_units,
num_layers) = (3, 4, 2) against (4, 5, 3). -/
theorem param_size_monotone_witness :
    get_param_size algorithm.rnn_lstm 1 3 4 2 ≤
      get_param_size algorithm.rnn_lstm 1 4 4 2 ∧
    get_param_size algorithm.rnn_lstm 1 3 4 2 ≤
      get_param_size algorithm.rnn_lstm 1 3 5 2 ∧
    get_param_size algorithm.rnn_lstm 1 3 4 2 ≤
      get_param_size algorithm.rnn_lstm 1 3 4 3 :=
  (param_size_monotone algorithm.rnn_lstm 1 3 4 2 4 5 3 (Or.inl rfl)
    (by decide) (by decide) (by decide) (by decide) (by decide) (by decide)).2

/-- C2 counterexample: with dir_count 2 and a rank-3 hidden tensor of
leading dimension 5 (not a multiple of 2), ExtractForwardInput does not
fail: it returns num_layers = 5 / 2 = 2 and rebuilds the hidden-state
shape with leading dimension 4. -/
theorem resolver_truncates_counterexample :
    ExtractForwardInput mtReluBi ⟨[4, 8, 3]⟩ ⟨[5, 8, 10]⟩ ⟨[1]⟩ =
      Except.ok
        { num_layers := 2, input_size := 3, num_units := 10, seq_length := 4,
          batch_size := 8, dir_count := 2, input_shape := [4, 8, 3],
          output_shape := [4, 8, 20], hidden_state_shape := [4, 8, 10] } ∧
    ¬ (2 ∣ 5) := ⟨rfl, by decide⟩

/-- C2 (amended): for a rank-3 hidden tensor the resolver never checks
divisibility: it proceeds with the truncated integer quotient
num_layers = dim0 / dir_count and normalizes the hidden-state shape's
leading dimension to dir_count * num_layers (shown here for models
without a cell state, where no other check can fire). -/
theorem resolver_truncated_quotient (mt : MkldnnModelTypes) (x h c : Tensor)
    (hnc : mt.HasInputC = false) (hr : h.dims ≠ 2) :
    ∃ ms, ExtractForwardInput mt x h c = Except.ok ms ∧
      ms.num_layers = h.dim_size 0 / ms.dir_count ∧
      ms.hidden_state_shape =
        [ms.dir_count * ms.num_layers,
         if x.dims = 2 then x.dim_size 0 else x.dim_size 1, h.dim_size 2] := by
  have hg : ¬(mt.HasInputC ∧ h.shape ≠ c.shape) := by simp [hnc]
  refine ⟨_, ExtractForwardInput_ok mt x h c hg, ?_, ?_⟩
  · simp [hr]
  · simp [hr]

/-- Witness for C2's amended theorem at hidden shape [5, 8, 10] with
dir_count 2: num_layers is the truncated quotient 2 and the hidden-state
shape's leading dimension becomes 4. -/
theorem resolver_truncated_quotient_witness :
    ∃ ms, ExtractForwardInput mtReluBi ⟨[4, 8, 3]⟩ ⟨[5, 8, 10]⟩ ⟨[1]⟩ =
        Except.ok ms ∧
      ms.num_layers = 5 / ms.dir_count ∧
      ms.hidden_state_shape = [ms.dir_count * ms.num_layers, 8, 10] :=
  resolver_truncated_quotient mtReluBi ⟨[4, 8, 3]⟩ ⟨[5, 8, 10]⟩ ⟨[1]⟩ rfl
    (by decide)

/-- C6: for models with a cell state (LSTM), whenever input_c's shape
differs from input_h's shape — any non-equal pair — ExtractForwardInput,
and with it both the forward and the backward Compute, fail with the
InvalidArgument error naming the two shapes. -/
theorem lstm_state_shape_check (mt : MkldnnModelTypes) (train : Bool)
    (ws : MkldnnModelTypes → MkldnnModelShapes → Nat)
    (x h c p dy dhy dcy rs : Tensor)
    (hc : mt.HasInputC = true) (hne : h.shape ≠ c.shape) :
    ExtractForwardInput mt x h c = Except.error (RnnError.invalidArgument
      "input_h and input_c must have the same shape: " [h.shape, c.shape]) ∧
    MkldnnRNNForwardCompute mt train ws x h c p =
      Except.error (RnnError.invalidArgument
        "input_h and input_c must have the same shape: " [h.shape, c.shape]) ∧
    MkldnnRNNBackwardCompute mt ws x h c p dy dhy dcy rs =
      Except.error (RnnError.invalidArgument
        "input_h and input_c must have the same shape: " [h.shape, c.shape]) := by
  have he : ExtractForwardInput mt x h c = Except.error (RnnError.invalidArgument
      "input_h and input_c must have the same shape: " [h.shape, c.shape]) := by
    simp only [ExtractForwardInput]
    rw [if_pos ⟨hc, hne⟩]
  refine ⟨he, ?_, ?_⟩
  · simp only [MkldnnRNNForwardCompute, he]
  · simp only [MkldnnRNNBackwardCompute, he]

/-- Witness for C6 at LSTM with input_h shape [8, 10] and input_c shape
[3, 3]. -/
theorem lstm_state_shape_check_witness :
    ExtractForwardInput mtLstmUni ⟨[8, 6]⟩ ⟨[8, 10]⟩ ⟨[3, 3]⟩ =
      Except.error (RnnError.invalidArgument
        "input_h and input_c must have the same shape: " [[8, 10], [3, 3]]) ∧
    MkldnnRNNForwardCompute mtLstmUni false (fun _ _ => 0) ⟨[8, 6]⟩ ⟨[8, 10]⟩
        ⟨[3, 3]⟩ ⟨[5]⟩ =
      Except.error (RnnError.invalidArgument
        "input_h and input_c must have the same shape: " [[8, 10], [3, 3]]) ∧
    MkldnnRNNBackwardCompute mtLstmUni (fun _ _ => 0) ⟨[8, 6]⟩ ⟨[8, 10]⟩
        ⟨[3, 3]⟩ ⟨[5]⟩ ⟨[1]⟩ ⟨[1]⟩ ⟨[1]⟩ ⟨[1]⟩ =
      Except.error (RnnError.invalidArgument
        "input_h and input_c must have the same shape: " [[8, 10], [3, 3]]) :=
  lstm_state_shape_check mtLstmUni false (fun _ _ => 0) ⟨[8, 6]⟩ ⟨[8, 10]⟩
    ⟨[3, 3]⟩ ⟨[5]⟩ ⟨[1]⟩ ⟨[1]⟩ ⟨[1]⟩ ⟨[1]⟩ rfl (by decide)

/-- C7: for rank-2 input the resolver derives seq_length 1,
batch_size = dim0, input_size = dim1 and output shape
[batch_size, dir_count*num_units]; for other ranks the output shape is
[seq_length, batch_size, dir_count*num_units]; concretely, rank-2 input
[8, 6] with rank-2 hidden [8, 10] under unidirectional LSTM yields
seq_length 1, num_layers 1 and output shape [8, 10]. -/
theorem rank2_input_derivation (mt : MkldnnModelTypes) (x h c : Tensor)
    (ms : MkldnnModelShapes)
    (hok : ExtractForwardInput mt x h c = Except.ok ms) :
    (x.dims = 2 →
      ms.seq_length = 1 ∧ ms.batch_size = x.dim_size 0 ∧
      ms.input_size = x.dim_size 1 ∧
      ms.output_shape = [x.dim_size 0, ms.dir_count * ms.num_units]) ∧
    (x.dims ≠ 2 →
      ms.output_shape = [ms.seq_length, ms.batch_size, ms.dir_count * ms.num_units]) ∧
    ExtractForwardInput mtLstmUni ⟨[8, 6]⟩ ⟨[8, 10]⟩ ⟨[8, 10]⟩ =
      Except.ok
        { num_layers := 1, input_size := 6, num_units := 10, seq_length := 1,
          batch_size := 8, dir_count := 1, input_shape := [1, 8, 6],
          output_shape := [8, 10], hidden_state_shape := [8, 10] } := by
  obtain ⟨-, -, hseq, hbatch, hisize, -, -, -, hout⟩ :=
    ExtractForwardInput_ok_spec mt x h c ms hok
  refine ⟨?_, ?_, rfl⟩
  · intro h2
    rw [if_pos h2] at hseq hbatch hisize hout
    refine ⟨hseq, hbatch, hisize, ?_⟩
    rw [hout, hbatch]
  · intro h2
    rw [if_neg h2] at hout
    exact hout

/-- Witness for C7 at the concrete scenario: rank-2 input [8, 6],
rank-2 hidden [8, 10], unidirectional LSTM. -/
theorem rank2_input_derivation_witness :
    (1 : Nat) = 1 ∧ (8 : Nat) = 8 ∧ (6 : Nat) = 6 ∧
    ([8, 10] : TensorShape) = [8, 10] :=
  (rank2_input_derivation mtLstmUni ⟨[8, 6]⟩ ⟨[8, 10]⟩ ⟨[8, 10]⟩
    { num_layers := 1, input_size := 6, num_units := 10, seq_length := 1,
      batch_size := 8, dir_count := 1, input_shape := [1, 8, 6],
      output_shape := [8, 10], hidden_state_shape := [8, 10] } rfl).1 rfl

/-- A rank-2 tensor's shape is the list of its first two dimensions. -/
theorem Tensor.shape_two (t : Tensor) (h2 : t.dims = 2) :
    t.shape = [t.dim_size 0, t.dim_size 1] :=
  shape_of_length_two t.shape h2

/-- A rank-3 tensor's shape is the list of its first three dimensions. -/
theorem Tensor.shape_three (t : Tensor) (h3 : t.dims = 3) :
    t.shape = [t.dim_size 0, t.dim_size 1, t.dim_size 2] :=
  shape_of_length_three t.shape h3

/-- C3 counterexample: a forward call can succeed with output_h's shape
different from input_h's shape: plain relu, rank-2 input [8, 6] and
rank-2 input_h [7, 10] succeed, and output_h is allocated with the
derived hidden-state shape [8, 10] (batch size taken from the input),
not input_h's shape [7, 10]. -/
theorem forward_output_h_counterexample :
    MkldnnRNNForwardCompute mtReluUni false (fun _ _ => 0) ⟨[8, 6]⟩ ⟨[7, 10]⟩
        ⟨[7, 10]⟩ ⟨[5]⟩ =
      Except.ok
        { output_shape := [8, 10], output_h_shape := [8, 10],
          output_c_shape := [], reserve_shape := [] } ∧
    ([8, 10] : TensorShape) ≠ [7, 10] := ⟨rfl, by decide⟩

/-- C3 (amended): a successful forward call allocates output_h with the
derived hidden-state shape; that shape equals input_h's shape whenever
input_h is consistent with the derived batch size (rank 2: its dim 0 is
the batch size; rank 3: its dim 0 is a multiple of dir_count and its
dim 1 is the batch size). output_c gets that same shape for models with
a cell state and the empty shape otherwise. -/
theorem forward_output_shapes (mt : MkldnnModelTypes) (train : Bool)
    (ws : MkldnnModelTypes → MkldnnModelShapes → Nat) (x h c p : Tensor)
    (fo : ForwardOutputs)
    (hok : MkldnnRNNForwardCompute mt train ws x h c p = Except.ok fo)
    (hcons :
      (h.dims = 2 ∧
        h.dim_size 0 = (if x.dims = 2 then x.dim_size 0 else x.dim_size 1)) ∨
      (h.dims = 3 ∧
        (if mt.rnn_direction_mode = direction.rnn_bidirectional then 2 else 1) ∣
          h.dim_size 0 ∧
        h.dim_size 1 = (if x.dims = 2 then x.dim_size 0 else x.dim_size 1))) :
    fo.output_h_shape = h.shape ∧
    fo.output_c_shape = (if mt.HasInputC then h.shape else ([] : TensorShape)) := by
  cases hex : ExtractForwardInput mt x h c with
  | error e =>
    simp only [MkldnnRNNForwardCompute, hex] at hok
    exact absurd hok (by simp)
  | ok ms =>
    simp only [MkldnnRNNForwardCompute, hex, Except.ok.injEq] at hok
    subst hok
    obtain ⟨-, hdir, -, hbatch, -, hlayers, hunits, hhid, -⟩ :=
      ExtractForwardInput_ok_spec mt x h c ms hex
    have hmain : ms.hidden_state_shape = h.shape := by
      rcases hcons with ⟨h2, hb⟩ | ⟨h3, hdvd, hb1⟩
      · rw [if_pos h2] at hhid
        rw [if_pos h2] at hunits
        rw [hhid, Tensor.shape_two h h2, hunits, hbatch, hb]
      · have hne2 : h.dims ≠ 2 := by simp [h3]
        rw [if_neg hne2] at hhid
        rw [if_neg hne2] at hunits
        rw [if_neg hne2] at hlayers
        have hdvd2 : ms.dir_count ∣ h.dim_size 0 := by rw [hdir]; exact hdvd
        have hcancel : ms.dir_count * ms.num_layers = h.dim_size 0 := by
          rw [hlayers]
          exact Nat.mul_div_cancel' hdvd2
        rw [hhid, Tensor.shape_three h h3, hcancel, hunits, hbatch, hb1]
    constructor
    · show ms.hidden_state_shape = h.shape
      exact hmain
    · show (if mt.HasInputC then ms.hidden_state_shape else []) =
        (if mt.HasInputC then h.shape else ([] : TensorShape))
      rw [hmain]

/-- Witness for C3's amended theorem: relu, rank-2 input [8, 6] with
consistent rank-2 input_h [8, 10]; output_h's shape equals input_h's. -/
theorem forward_output_shapes_witness :
    ([8, 10] : TensorShape) = [8, 10] ∧ ([] : TensorShape) = [] :=
  forward_output_shapes mtReluUni false (fun _ _ => 0) ⟨[8, 6]⟩ ⟨[8, 10]⟩
    ⟨[1]⟩ ⟨[5]⟩
    { output_shape := [8, 10], output_h_shape := [8, 10],
      output_c_shape := [], reserve_shape := [] }
    rfl (Or.inl ⟨rfl, rfl⟩)

/-- C4 counterexample: in a backward call (bidirectional LSTM, derived
output shape [8, 20]) with mismatched output_backprop shape [9, 9], the
error message is built as "h and c must have the same shape: " from
input_h's and input_c's shapes; neither the offending tensor's shape
[9, 9] nor the expected output shape [8, 20] appears in it. -/
theorem backward_dy_message_counterexample :
    MkldnnRNNBackwardCompute mtLstmBi (fun _ _ => 0) ⟨[8, 6]⟩ ⟨[8, 10]⟩
        ⟨[8, 10]⟩ ⟨[5]⟩ ⟨[9, 9]⟩ ⟨[8, 10]⟩ ⟨[8, 10]⟩ ⟨[1]⟩ =
      Except.error (RnnError.invalidArgument
        "h and c must have the same shape: " [[8, 10], [8, 10]]) ∧
    ([9, 9] : TensorShape) ∉ ([[8, 10], [8, 10]] : List TensorShape) ∧
    ([8, 20] : TensorShape) ∉ ([[8, 10], [8, 10]] : List TensorShape) :=
  ⟨rfl, by decide, by decide⟩

/-- C4 (amended): every gradient-shape mismatch in a backward call on a
model with a cell state fails with InvalidArgument; the hidden- and
cell-gradient messages name the offending tensor's shape and the
expected shape, but the output-gradient message instead interpolates
input_h's and input_c's shapes under the text "h and c must have the
same shape" (and on models without a cell state that branch dereferences
the null cell pointer, see the C10 theorem). -/
theorem backward_gradient_checks (mt : MkldnnModelTypes)
    (ws : MkldnnModelTypes → MkldnnModelShapes → Nat)
    (x h c p dy dhy dcy rs : Tensor) (ms : MkldnnModelShapes)
    (hc : mt.HasInputC = true)
    (hok : ExtractForwardInput mt x h c = Except.ok ms) :
    (dy.shape ≠ ms.output_shape →
      MkldnnRNNBackwardCompute mt ws x h c p dy dhy dcy rs =
        Except.error (RnnError.invalidArgument
          "h and c must have the same shape: " [h.shape, c.shape])) ∧
    (dy.shape = ms.output_shape → dhy.shape ≠ ms.hidden_state_shape →
      MkldnnRNNBackwardCompute mt ws x h c p dy dhy dcy rs =
        Except.error (RnnError.invalidArgument
          "Invalid dhy shape: " [dhy.shape, ms.hidden_state_shape])) ∧
    (dy.shape = ms.output_shape → dhy.shape = ms.hidden_state_shape →
      dcy.shape ≠ ms.hidden_state_shape →
      MkldnnRNNBackwardCompute mt ws x h c p dy dhy dcy rs =
        Except.error (RnnError.invalidArgument
          "Invalid dcy shape: " [dcy.shape, ms.hidden_state_shape])) := by
  refine ⟨?_, ?_, ?_⟩
  · intro h1
    simp only [MkldnnRNNBackwardCompute, hok]
    rw [if_pos (fun he => h1 he.symm)]
    simp [hc]
  · intro h1 h2
    simp only [MkldnnRNNBackwardCompute, hok]
    rw [if_neg (fun hne => hne h1.symm)]
    rw [if_pos h2]
  · intro h1 h2 h3
    simp only [MkldnnRNNBackwardCompute, hok]
    rw [if_neg (fun hne => hne h1.symm)]
    rw [if_neg (fun hne => hne h2)]
    rw [if_pos ⟨hc, h3⟩]

/-- Witness for C4's amended theorem: unidirectional LSTM with derived
output shape [8, 10] and output_backprop shape [9, 9]; the failure
message interpolates input_h's and input_c's shapes. -/
theorem backward_gradient_checks_witness :
    MkldnnRNNBackwardCompute mtLstmUni (fun _ _ => 0) ⟨[8, 6]⟩ ⟨[8, 10]⟩
        ⟨[8, 10]⟩ ⟨[5]⟩ ⟨[9, 9]⟩ ⟨[8, 10]⟩ ⟨[8, 10]⟩ ⟨[1]⟩ =
      Except.error (RnnError.invalidArgument
        "h and c must have the same shape: " [[8, 10], [8, 10]]) :=
  (backward_gradient_checks mtLstmUni (fun _ _ => 0) ⟨[8, 6]⟩ ⟨[8, 10]⟩
    ⟨[8, 10]⟩ ⟨[5]⟩ ⟨[9, 9]⟩ ⟨[8, 10]⟩ ⟨[8, 10]⟩ ⟨[1]⟩
    { num_layers := 1, input_size := 6, num_units := 10, seq_length := 1,
      batch_size := 8, dir_count := 1, input_shape := [1, 8, 6],
      output_shape := [8, 10], hidden_state_shape := [8, 10] }
    rfl rfl).1 (by decide)

/-- C5: a forward call with is_training false allocates the reserve-space
output with the empty placeholder shape; with is_training true it
allocates a rank-1 reserve space of exactly the element count reported
by the forward primitive descriptor's workspace query, and a backward
call on the same input, input_h and input_c builds its workspace memory
descriptor with that same element count. -/
theorem reserve_space_lifecycle (mt : MkldnnModelTypes)
    (ws : MkldnnModelTypes → MkldnnModelShapes → Nat)
    (x h c p dy dhy dcy rs : Tensor) (ms : MkldnnModelShapes)
    (foi fot : ForwardOutputs) (bo : BackwardOutputs)
    (hms : ExtractForwardInput mt x h c = Except.ok ms)
    (hfoi : MkldnnRNNForwardCompute mt false ws x h c p = Except.ok foi)
    (hfot : MkldnnRNNForwardCompute mt true ws x h c p = Except.ok fot)
    (hbo : MkldnnRNNBackwardCompute mt ws x h c p dy dhy dcy rs = Except.ok bo) :
    foi.reserve_shape = [] ∧ fot.reserve_shape = [ws mt ms] ∧
    fot.reserve_shape = [bo.expected_workspace_size] := by
  simp only [MkldnnRNNForwardCompute, hms, Except.ok.injEq] at hfoi hfot
  subst hfoi
  subst hfot
  simp only [MkldnnRNNBackwardCompute, hms] at hbo
  split at hbo
  · split at hbo <;> simp at hbo
  · split at hbo
    · simp at hbo
    · split at hbo
      · simp at hbo
      · simp only [Except.ok.injEq] at hbo
        subst hbo
        exact ⟨rfl, rfl, rfl⟩

/-- Witness for C5: relu, rank-2 input [8, 6], input_h [8, 10], a
workspace query reporting 7 elements; inference reserve shape is empty,
training reserve shape is [7], and backward expects 7. -/
theorem reserve_space_lifecycle_witness :
    ([] : TensorShape) = [] ∧ ([7] : TensorShape) = [7] ∧
    ([7] : TensorShape) = [7] :=
  reserve_space_lifecycle mtReluUni (fun _ _ => 7) ⟨[8, 6]⟩ ⟨[8, 10]⟩ ⟨[1]⟩
    ⟨[10]⟩ ⟨[8, 10]⟩ ⟨[8, 10]⟩ ⟨[1]⟩ ⟨[7]⟩
    { num_layers := 1, input_size := 6, num_units := 10, seq_length := 1,
      batch_size := 8, dir_count := 1, input_shape := [1, 8, 6],
      output_shape := [8, 10], hidden_state_shape := [8, 10] }
    { output_shape := [8, 10], output_h_shape := [8, 10],
      output_c_shape := [], reserve_shape := [] }
    { output_shape := [8, 10], output_h_shape := [8, 10],
      output_c_shape := [], reserve_shape := [7] }
    { input_backprop_shape := [8, 6], input_h_backprop_shape := [8, 10],
      input_c_backprop_shape := [], params_backprop_shape := [10],
      expected_workspace_size := 7 }
    rfl rfl rfl rfl

/-- C9 counterexample: a SizeQuery call whose num_layers input has shape
[2] (not a scalar) does not fail: it logs and returns the size computed
from the tensors' data values (LSTM, unidirectional, data 2, 4, 3 give
304). -/
theorem size_query_nonscalar_counterexample :
    MkldnnRNNParamsSizeCompute mtLstmUni ⟨[2], 2⟩ ⟨[], 4⟩ ⟨[], 3⟩ =
      Except.ok (["num_layers is not a scalar"], 304) ∧
    (304 : Int) = get_param_size algorithm.rnn_lstm 1 3 4 2 :=
  ⟨rfl, by decide⟩

/-- C9 (amended): when any of the three SizeQuery inputs is not a scalar
the call still succeeds, producing the size computed from the tensors'
data values; the only trace of the problem is a non-empty error log. -/
theorem size_query_logs_and_proceeds (mt : MkldnnModelTypes)
    (nl nu ni : ScalarInput)
    (hns : ¬ IsScalar nl.shape ∨ ¬ IsScalar nu.shape ∨ ¬ IsScalar ni.shape) :
    ∃ logs, MkldnnRNNParamsSizeCompute mt nl nu ni =
        Except.ok (logs,
          get_param_size mt.rnn_mode
            (if mt.rnn_direction_mode = direction.rnn_unidirectional then 1
             else 2)
            ni.value nu.value nl.value) ∧
      logs ≠ [] := by
  refine ⟨_, rfl, ?_⟩
  rcases hns with hn | hn | hn <;> simp [hn]

/-- Witness for C9's amended theorem at a non-scalar num_layers input of
shape [2]. -/
theorem size_query_logs_and_proceeds_witness :
    ∃ logs, MkldnnRNNParamsSizeCompute mtLstmUni ⟨[2], 2⟩ ⟨[], 4⟩ ⟨[], 3⟩ =
        Except.ok (logs, 304) ∧ logs ≠ [] :=
  size_query_logs_and_proceeds mtLstmUni ⟨[2], 2⟩ ⟨[], 4⟩ ⟨[], 3⟩
    (Or.inl (by decide))

/-- C10: in a backward call on a model without a cell state, if the
output-gradient shape check fails, the error branch reads the cell-state
input pointer, which ExtractForwardInput never assigned for such models
and which is therefore still null: the branch is a null dereference. -/
theorem backward_null_cx_deref (mt : MkldnnModelTypes)
    (ws : MkldnnModelTypes → MkldnnModelShapes → Nat)
    (x h c p dy dhy dcy rs : Tensor) (ms : MkldnnModelShapes)
    (hnc : mt.HasInputC = false)
    (hms : ExtractForwardInput mt x h c = Except.ok ms)
    (hdy : dy.shape ≠ ms.output_shape) :
    MkldnnRNNBackwardCompute mt ws x h c p dy dhy dcy rs =
      Except.error RnnError.nullDeref := by
  simp only [MkldnnRNNBackwardCompute, hms]
  rw [if_pos (fun he => hdy he.symm)]
  simp [hnc]

/-- Witness for C10: relu (no cell state), derived output shape [8, 10],
output_backprop shape [9, 9]; the failing check's branch is the null
dereference. -/
theorem backward_null_cx_deref_witness :
    MkldnnRNNBackwardCompute mtReluUni (fun _ _ => 0) ⟨[8, 6]⟩ ⟨[8, 10]⟩
        ⟨[1]⟩ ⟨[5]⟩ ⟨[9, 9]⟩ ⟨[8, 10]⟩ ⟨[1]⟩ ⟨[1]⟩ =
      Except.error RnnError.nullDeref :=
  backward_null_cx_deref mtReluUni (fun _ _ => 0) ⟨[8, 6]⟩ ⟨[8, 10]⟩ ⟨[1]⟩
    ⟨[5]⟩ ⟨[9, 9]⟩ ⟨[8, 10]⟩ ⟨[1]⟩ ⟨[1]⟩
    { num_layers := 1, input_size := 6, num_units := 10, seq_length := 1,
      batch_size := 8, dir_count := 1, input_shape := [1, 8, 6],
      output_shape := [8, 10], hidden_state_shape := [8, 10] }
    rfl rfl (by decide)

end MkldnnRnn
